import Mathlib

/-!
Verification of the Ball-House automatic check-in geofencing service
(`GeofencingService` and its helpers in the repository's geofencing module).

The service is modelled as pure functions: asynchronous effects of one
evaluation cycle (`processLocationUpdate`) are captured as the list of
gateway calls issued (in order) and the list of `saveGeofenceState` writes
performed (in order); the results of the external check-in / check-out
requests are supplied as Boolean-valued oracles indexed by court id, and
the current time (`Date.now()`) and the loaded persisted state are explicit
parameters.  Real numbers stand in for JavaScript floats, so trigonometric
identities are exact and floating-point rounding is out of scope.
-/

namespace BallHouse

open Real

/-- `GEOFENCE_RADIUS = 75` meters, from the source constant. -/
def GEOFENCE_RADIUS : ℝ := 75

/-- `CHECK_INTERVAL = 30000` milliseconds, from the source constant. -/
def CHECK_INTERVAL : ℤ := 30000

/-- The `Court` interface: `{id, name, latitude, longitude}`. -/
structure Court where
  id : String
  name : String
  latitude : ℝ
  longitude : ℝ

/-- The persisted `GeofenceState`: `{currentCourtId: string | null, lastCheckTime: number}`.
Times are epoch milliseconds, modelled as integers. -/
structure GeofenceState where
  currentCourtId : Option String
  lastCheckTime : ℤ
deriving DecidableEq

/-- A location sample's coordinates (`location.coords`). -/
structure Coords where
  latitude : ℝ
  longitude : ℝ

/-- JavaScript `Math.atan2(y, x)` over the reals (signed zeros are not
distinguished; `atan2 0 0 = 0`, matching `Math.atan2(+0, +0)`). -/
noncomputable def atan2 (y x : ℝ) : ℝ :=
  if 0 < x then Real.arctan (y / x)
  else if x < 0 then
    (if 0 ≤ y then Real.arctan (y / x) + Real.pi else Real.arctan (y / x) - Real.pi)
  else
    (if 0 < y then Real.pi / 2 else if y < 0 then -(Real.pi / 2) else 0)

/-- `calculateDistance(lat1, lon1, lat2, lon2)`: the Haversine distance in
meters between two coordinates, Earth radius `6371e3`, exactly as in the
source (`R * c` with `c = 2 * atan2(sqrt a, sqrt (1 - a))`). -/
noncomputable def calculateDistance (lat1 lon1 lat2 lon2 : ℝ) : ℝ :=
  let R : ℝ := 6371000
  let phi1 := lat1 * Real.pi / 180
  let phi2 := lat2 * Real.pi / 180
  let dphi := (lat2 - lat1) * Real.pi / 180
  let dlam := (lon2 - lon1) * Real.pi / 180
  let a := Real.sin (dphi / 2) * Real.sin (dphi / 2) +
    Real.cos phi1 * Real.cos phi2 * Real.sin (dlam / 2) * Real.sin (dlam / 2)
  let c := 2 * atan2 (Real.sqrt a) (Real.sqrt (1 - a))
  R * c

/-- One fallible gateway call (`checkInToCourt` / `checkOutOfCourt`),
recorded with the court id it targets. -/
inductive GatewayCall where
  | checkin (courtId : String)
  | checkout (courtId : String)
deriving DecidableEq

/-- `fetchCourts()`: returns the backend's court list, or `[]` when the
request fails (the `catch` branch returns an empty array).  The response is
passed in as `none` (request failed) or `some courts`. -/
def fetchCourts (response : Option (List Court)) : List Court :=
  match response with
  | some courts => courts
  | none => []

/-- Distance from a sample position to a court, as computed inside the
nearest-court loop. -/
noncomputable def courtDistance (lat lon : ℝ) (court : Court) : ℝ :=
  calculateDistance lat lon court.latitude court.longitude

open Classical in
/-- One iteration of the nearest-court loop of `processLocationUpdate`: the
accumulator `(nearestCourt, minDistance)` (with `none` standing for the
initial `nearestCourt = null`, `minDistance = Infinity`) is replaced exactly
when `distance < GEOFENCE_RADIUS && distance < minDistance`, the second
conjunct being vacuous against `Infinity`. -/
noncomputable def scanStep (lat lon : ℝ) (acc : Option (Court × ℝ))
    (court : Court) : Option (Court × ℝ) :=
  let distance := calculateDistance lat lon court.latitude court.longitude
  match acc with
  | none =>
      if distance < GEOFENCE_RADIUS then some (court, distance) else none
  | some (nearest, minDistance) =>
      if distance < GEOFENCE_RADIUS ∧ distance < minDistance then
        some (court, distance)
      else some (nearest, minDistance)

/-- The nearest-court loop of `processLocationUpdate`: fold `scanStep` over
the catalog starting from `nearestCourt = null`, `minDistance = Infinity`. -/
noncomputable def scanCourts (lat lon : ℝ) (courts : List Court) :
    Option (Court × ℝ) :=
  courts.foldl (scanStep lat lon) none

/-- The observable effects of one `processLocationUpdate` invocation:
whether `fetchCourts` was reached, the gateway calls issued in order, and
the `saveGeofenceState` writes performed in order. -/
structure CycleResult where
  fetchedCatalog : Bool
  calls : List GatewayCall
  saves : List GeofenceState
deriving DecidableEq

open Classical in
/-- `processLocationUpdate(location)` as a pure function.  `checkinOk` /
`checkoutOk` give the result of `checkInToCourt` / `checkOutOfCourt` for a
given court id (`false` covers both a missing auth token and a failed
request); `now` is `Date.now()`; `state` is the loaded geofence state;
`courts` is the catalog returned by `fetchCourts`.  The trace follows the
source line by line: throttle check, empty-catalog check, nearest-court
scan, the enter/exit branches, and the unconditional trailing
`state.lastCheckTime = now; saveGeofenceState(state)`. -/
noncomputable def processLocationUpdate (checkinOk checkoutOk : String → Bool)
    (loc : Coords) (now : ℤ) (state : GeofenceState) (courts : List Court) :
    CycleResult :=
  if now - state.lastCheckTime < CHECK_INTERVAL then
    { fetchedCatalog := false, calls := [], saves := [] }
  else if courts.length = 0 then
    { fetchedCatalog := true, calls := [], saves := [] }
  else
    match scanCourts loc.latitude loc.longitude courts with
    | some (nearestCourt, _) =>
        if state.currentCourtId ≠ some nearestCourt.id then
          let checkoutCalls : List GatewayCall :=
            match state.currentCourtId with
            | some old => [GatewayCall.checkout old]
            | none => []
          let enterSaves : List GeofenceState :=
            if checkinOk nearestCourt.id then
              [{ currentCourtId := some nearestCourt.id, lastCheckTime := now }]
            else []
          { fetchedCatalog := true
            calls := checkoutCalls ++ [GatewayCall.checkin nearestCourt.id]
            saves := enterSaves ++
              [{ currentCourtId := state.currentCourtId, lastCheckTime := now }] }
        else
          { fetchedCatalog := true
            calls := []
            saves := [{ currentCourtId := state.currentCourtId, lastCheckTime := now }] }
    | none =>
        match state.currentCourtId with
        | some old =>
            { fetchedCatalog := true
              calls := [GatewayCall.checkout old]
              saves := [{ currentCourtId := none, lastCheckTime := now },
                { currentCourtId := some old, lastCheckTime := now }] }
        | none =>
            { fetchedCatalog := true
              calls := []
              saves := [{ currentCourtId := none, lastCheckTime := now }] }

/-- The state visible to the next cycle: the last `saveGeofenceState` write
of the cycle, or the prior persisted state when the cycle wrote nothing. -/
def finalState (prior : GeofenceState) (r : CycleResult) : GeofenceState :=
  (r.saves.getLast?).getD prior

/-- Whether a recorded gateway call failed, per the call-result oracles. -/
def callFails (checkinOk checkoutOk : String → Bool) : GatewayCall → Bool
  | GatewayCall.checkin courtId => !(checkinOk courtId)
  | GatewayCall.checkout courtId => !(checkoutOk courtId)

/-- A permission request issued by `startGeofencing`. -/
inductive PermissionRequest where
  | foreground
  | background
deriving DecidableEq

/-- Environment of one `startGeofencing()` run: whether the background task
is already registered, the status strings the two permission requests would
return, and whether `startLocationUpdatesAsync` succeeds (its failure is
caught and turned into `false`). -/
structure StartEnv where
  isRegistered : Bool
  foregroundStatus : String
  backgroundStatus : String
  startUpdatesOk : Bool

/-- Observable outcome of one `startGeofencing()` run: the permission
requests issued in order, whether `startLocationUpdatesAsync` was invoked,
and the returned Boolean. -/
structure StartResult where
  requests : List PermissionRequest
  subscribed : Bool
  result : Bool
deriving DecidableEq

/-- `GeofencingService.startGeofencing()` as a pure function of its
environment, following the source: if the task is already registered return
`true` immediately; otherwise request foreground permission, bail out with
`false` unless the status is `"granted"`; then the same for background;
then start location updates and return `true` (or `false` when that call
throws). -/
def startGeofencing (env : StartEnv) : StartResult :=
  if env.isRegistered then
    { requests := [], subscribed := false, result := true }
  else if env.foregroundStatus ≠ "granted" then
    { requests := [PermissionRequest.foreground], subscribed := false, result := false }
  else if env.backgroundStatus ≠ "granted" then
    { requests := [PermissionRequest.foreground, PermissionRequest.background],
      subscribed := false, result := false }
  else
    { requests := [PermissionRequest.foreground, PermissionRequest.background],
      subscribed := true, result := env.startUpdatesOk }

/-! ### Distance evaluator lemmas -/

theorem atan2_nonneg (y x : ℝ) (hy : 0 ≤ y) : 0 ≤ atan2 y x := by
  unfold atan2
  by_cases h1 : 0 < x
  · rw [if_pos h1]
    have h := Real.arctan_strictMono.monotone (div_nonneg hy h1.le)
    rwa [Real.arctan_zero] at h
  · rw [if_neg h1]
    by_cases h2 : x < 0
    · rw [if_pos h2, if_pos hy]
      have h := Real.neg_pi_div_two_lt_arctan (y / x)
      linarith [Real.pi_pos]
    · rw [if_neg h2]
      by_cases h3 : 0 < y
      · rw [if_pos h3]
        linarith [Real.pi_pos]
      · rw [if_neg h3, if_neg (not_lt.mpr hy)]

theorem atan2_zero_one : atan2 0 1 = 0 := by
  unfold atan2
  norm_num [Real.arctan_zero]

theorem atan2_one_zero : atan2 1 0 = Real.pi / 2 := by
  unfold atan2
  norm_num

theorem calculateDistance_self (lat lon : ℝ) :
    calculateDistance lat lon lat lon = 0 := by
  simp only [calculateDistance]
  norm_num [atan2_zero_one]

theorem calculateDistance_nonneg (lat1 lon1 lat2 lon2 : ℝ) :
    0 ≤ calculateDistance lat1 lon1 lat2 lon2 := by
  simp only [calculateDistance]
  have h := atan2_nonneg (Real.sqrt (Real.sin ((lat2 - lat1) * Real.pi / 180 / 2) *
      Real.sin ((lat2 - lat1) * Real.pi / 180 / 2) +
      Real.cos (lat1 * Real.pi / 180) * Real.cos (lat2 * Real.pi / 180) *
      Real.sin ((lon2 - lon1) * Real.pi / 180 / 2) *
      Real.sin ((lon2 - lon1) * Real.pi / 180 / 2)))
    (Real.sqrt (1 - (Real.sin ((lat2 - lat1) * Real.pi / 180 / 2) *
      Real.sin ((lat2 - lat1) * Real.pi / 180 / 2) +
      Real.cos (lat1 * Real.pi / 180) * Real.cos (lat2 * Real.pi / 180) *
      Real.sin ((lon2 - lon1) * Real.pi / 180 / 2) *
      Real.sin ((lon2 - lon1) * Real.pi / 180 / 2))))
    (Real.sqrt_nonneg _)
  nlinarith

theorem calculateDistance_symm (lat1 lon1 lat2 lon2 : ℝ) :
    calculateDistance lat1 lon1 lat2 lon2 = calculateDistance lat2 lon2 lat1 lon1 := by
  simp only [calculateDistance]
  have h1 : (lat1 - lat2) * Real.pi / 180 / 2 = -((lat2 - lat1) * Real.pi / 180 / 2) := by
    ring
  have h2 : (lon1 - lon2) * Real.pi / 180 / 2 = -((lon2 - lon1) * Real.pi / 180 / 2) := by
    ring
  rw [h1, h2, Real.sin_neg, Real.sin_neg]
  ring_nf

theorem calculateDistance_lon_wraparound : calculateDistance 0 0 0 360 = 0 := by
  simp only [calculateDistance]
  have h : (360 - 0 : ℝ) * Real.pi / 180 / 2 = Real.pi := by ring
  rw [h, Real.sin_pi]
  norm_num [atan2_zero_one]

theorem calculateDistance_antipolar : calculateDistance 0 0 180 0 = 6371000 * Real.pi := by
  simp only [calculateDistance]
  have h1 : (180 - 0 : ℝ) * Real.pi / 180 / 2 = Real.pi / 2 := by ring
  rw [h1, Real.sin_pi_div_two]
  norm_num [atan2_one_zero]
  ring

theorem calculateDistance_antipolar_far :
    ¬ calculateDistance 0 0 180 0 < GEOFENCE_RADIUS := by
  rw [calculateDistance_antipolar]
  unfold GEOFENCE_RADIUS
  nlinarith [Real.pi_gt_three]

/-! ### Nearest-court scan lemmas -/

theorem scanStep_none_within (lat lon : ℝ) (court : Court)
    (h : courtDistance lat lon court < GEOFENCE_RADIUS) :
    scanStep lat lon none court = some (court, courtDistance lat lon court) := by
  unfold scanStep courtDistance at *
  simp [h]

theorem scanStep_none_far (lat lon : ℝ) (court : Court)
    (h : ¬ courtDistance lat lon court < GEOFENCE_RADIUS) :
    scanStep lat lon none court = none := by
  unfold scanStep courtDistance at *
  simp [h]

theorem scanStep_some_improve (lat lon : ℝ) (p : Court × ℝ) (court : Court)
    (h : courtDistance lat lon court < GEOFENCE_RADIUS ∧
      courtDistance lat lon court < p.2) :
    scanStep lat lon (some p) court = some (court, courtDistance lat lon court) := by
  obtain ⟨n, m⟩ := p
  unfold scanStep courtDistance at *
  simp [h]

theorem scanStep_some_keep (lat lon : ℝ) (p : Court × ℝ) (court : Court)
    (h : ¬ (courtDistance lat lon court < GEOFENCE_RADIUS ∧
      courtDistance lat lon court < p.2)) :
    scanStep lat lon (some p) court = some p := by
  obtain ⟨n, m⟩ := p
  unfold scanStep courtDistance at *
  simp [h]

theorem scanAux_ne_none (lat lon : ℝ) :
    ∀ (courts : List Court) (p : Court × ℝ),
      courts.foldl (scanStep lat lon) (some p) ≠ none := by
  intro courts
  induction courts with
  | nil => intro p h; simp at h
  | cons court rest ih =>
      intro p
      simp only [List.foldl_cons]
      by_cases h : courtDistance lat lon court < GEOFENCE_RADIUS ∧
          courtDistance lat lon court < p.2
      · rw [scanStep_some_improve lat lon p court h]
        exact ih _
      · rw [scanStep_some_keep lat lon p court h]
        exact ih p

theorem scanAux_le (lat lon : ℝ) :
    ∀ (courts : List Court) (p : Court × ℝ) (c : Court) (d : ℝ),
      courts.foldl (scanStep lat lon) (some p) = some (c, d) → d ≤ p.2 := by
  intro courts
  induction courts with
  | nil =>
      intro p c d h
      simp only [List.foldl_nil] at h
      cases h
      exact le_refl _
  | cons court rest ih =>
      intro p c d h
      simp only [List.foldl_cons] at h
      by_cases hc : courtDistance lat lon court < GEOFENCE_RADIUS ∧
          courtDistance lat lon court < p.2
      · rw [scanStep_some_improve lat lon p court hc] at h
        have := ih _ c d h
        exact le_trans this (le_of_lt hc.2)
      · rw [scanStep_some_keep lat lon p court hc] at h
        exact ih p c d h

theorem scanAux_within (lat lon : ℝ) :
    ∀ (courts : List Court) (acc : Option (Court × ℝ)) (c : Court) (d : ℝ),
      (∀ (x : Court) (dx : ℝ), acc = some (x, dx) → dx < GEOFENCE_RADIUS) →
      courts.foldl (scanStep lat lon) acc = some (c, d) → d < GEOFENCE_RADIUS := by
  intro courts
  induction courts with
  | nil =>
      intro acc c d hacc h
      simp only [List.foldl_nil] at h
      exact hacc c d h
  | cons court rest ih =>
      intro acc c d hacc h
      simp only [List.foldl_cons] at h
      refine ih (scanStep lat lon acc court) c d ?_ h
      intro x dx hx
      cases acc with
      | none =>
          by_cases hw : courtDistance lat lon court < GEOFENCE_RADIUS
          · rw [scanStep_none_within lat lon court hw] at hx
            cases hx
            exact hw
          · rw [scanStep_none_far lat lon court hw] at hx
            cases hx
      | some p =>
          by_cases hw : courtDistance lat lon court < GEOFENCE_RADIUS ∧
              courtDistance lat lon court < p.2
          · rw [scanStep_some_improve lat lon p court hw] at hx
            cases hx
            exact hw.1
          · rw [scanStep_some_keep lat lon p court hw] at hx
            cases hx
            exact hacc x dx rfl

theorem scanAux_min (lat lon : ℝ) :
    ∀ (courts : List Court) (acc : Option (Court × ℝ)) (c : Court) (d : ℝ),
      (∀ (x : Court) (dx : ℝ), acc = some (x, dx) → dx < GEOFENCE_RADIUS) →
      courts.foldl (scanStep lat lon) acc = some (c, d) →
      ∀ c' ∈ courts, ¬ (courtDistance lat lon c' < d) := by
  intro courts
  induction courts with
  | nil =>
      intro acc c d _ _ c' hc'
      simp at hc'
  | cons court rest ih =>
      intro acc c d hacc h c' hc'
      simp only [List.foldl_cons] at h
      have haccStep : ∀ (x : Court) (dx : ℝ),
          scanStep lat lon acc court = some (x, dx) → dx < GEOFENCE_RADIUS := by
        intro x dx hx
        cases acc with
        | none =>
            by_cases hw : courtDistance lat lon court < GEOFENCE_RADIUS
            · rw [scanStep_none_within lat lon court hw] at hx
              cases hx
              exact hw
            · rw [scanStep_none_far lat lon court hw] at hx
              cases hx
        | some p =>
            by_cases hw : courtDistance lat lon court < GEOFENCE_RADIUS ∧
                courtDistance lat lon court < p.2
            · rw [scanStep_some_improve lat lon p court hw] at hx
              cases hx
              exact hw.1
            · rw [scanStep_some_keep lat lon p court hw] at hx
              cases hx
              exact hacc x dx rfl
      rcases List.mem_cons.mp hc' with hc1 | hc2
      · subst hc1
        cases acc with
        | none =>
            by_cases hw : courtDistance lat lon c' < GEOFENCE_RADIUS
            · rw [scanStep_none_within lat lon c' hw] at h
              have hle := scanAux_le lat lon rest _ c d h
              exact fun hlt => absurd hle (not_le.mpr hlt)
            · rw [scanStep_none_far lat lon c' hw] at h
              have hdR := scanAux_within lat lon rest none c d (by intro x dx hx; cases hx) h
              intro hlt
              exact hw (lt_trans hlt hdR)
        | some p =>
            by_cases hw : courtDistance lat lon c' < GEOFENCE_RADIUS ∧
                courtDistance lat lon c' < p.2
            · rw [scanStep_some_improve lat lon p c' hw] at h
              have hle := scanAux_le lat lon rest _ c d h
              exact fun hlt => absurd hle (not_le.mpr hlt)
            · rw [scanStep_some_keep lat lon p c' hw] at h
              have hle := scanAux_le lat lon rest p c d h
              rcases not_and_or.mp hw with hw1 | hw2
              · have hdR := scanAux_within lat lon rest (some p) c d
                  (by intro x dx hx; cases hx; exact hacc x dx rfl) h
                intro hlt
                exact hw1 (lt_trans hlt hdR)
              · intro hlt
                exact hw2 (lt_of_lt_of_le hlt hle)
      · exact ih (scanStep lat lon acc court) c d haccStep h c' hc2

theorem scanAux_mem (lat lon : ℝ) :
    ∀ (courts : List Court) (acc : Option (Court × ℝ)) (c : Court) (d : ℝ),
      courts.foldl (scanStep lat lon) acc = some (c, d) →
      acc = some (c, d) ∨
        (c ∈ courts ∧ d = courtDistance lat lon c ∧ d < GEOFENCE_RADIUS) := by
  intro courts
  induction courts with
  | nil =>
      intro acc c d h
      simp only [List.foldl_nil] at h
      exact Or.inl h
  | cons court rest ih =>
      intro acc c d h
      simp only [List.foldl_cons] at h
      rcases ih (scanStep lat lon acc court) c d h with h1 | h2
      · cases acc with
        | none =>
            by_cases hw : courtDistance lat lon court < GEOFENCE_RADIUS
            · rw [scanStep_none_within lat lon court hw] at h1
              cases h1
              exact Or.inr ⟨List.mem_cons_self _ _, rfl, hw⟩
            · rw [scanStep_none_far lat lon court hw] at h1
              cases h1
        | some p =>
            by_cases hw : courtDistance lat lon court < GEOFENCE_RADIUS ∧
                courtDistance lat lon court < p.2
            · rw [scanStep_some_improve lat lon p court hw] at h1
              cases h1
              exact Or.inr ⟨List.mem_cons_self _ _, rfl, hw.1⟩
            · rw [scanStep_some_keep lat lon p court hw] at h1
              exact Or.inl h1
      · exact Or.inr ⟨List.mem_cons_of_mem _ h2.1, h2.2⟩

theorem scanCourts_some_spec (lat lon : ℝ) (courts : List Court) (c : Court)
    (d : ℝ) (h : scanCourts lat lon courts = some (c, d)) :
    c ∈ courts ∧ d = courtDistance lat lon c ∧ d < GEOFENCE_RADIUS ∧
      ∀ c' ∈ courts, ¬ (courtDistance lat lon c' < d) := by
  unfold scanCourts at h
  rcases scanAux_mem lat lon courts none c d h with h1 | h2
  · cases h1
  · exact ⟨h2.1, h2.2.1, h2.2.2,
      scanAux_min lat lon courts none c d (by intro x dx hx; cases hx) h⟩

theorem scanCourts_eq_none_iff (lat lon : ℝ) (courts : List Court) :
    scanCourts lat lon courts = none ↔
      ∀ c ∈ courts, ¬ (courtDistance lat lon c < GEOFENCE_RADIUS) := by
  unfold scanCourts
  induction courts with
  | nil => simp
  | cons court rest ih =>
      simp only [List.foldl_cons]
      by_cases hw : courtDistance lat lon court < GEOFENCE_RADIUS
      · rw [scanStep_none_within lat lon court hw]
        refine iff_of_false (scanAux_ne_none lat lon rest _) ?_
        intro hall
        exact hall court (List.mem_cons_self _ _) hw
      · rw [scanStep_none_far lat lon court hw, ih]
        constructor
        · intro hall c hc
          rcases List.mem_cons.mp hc with h1 | h2
          · subst h1; exact hw
          · exact hall c h2
        · intro hall c hc
          exact hall c (List.mem_cons_of_mem _ hc)

theorem scanAux_keep (lat lon : ℝ) :
    ∀ (courts : List Court) (p : Court × ℝ),
      (∀ x ∈ courts, ¬ (courtDistance lat lon x < p.2)) →
      courts.foldl (scanStep lat lon) (some p) = some p := by
  intro courts
  induction courts with
  | nil => intro p _; simp
  | cons court rest ih =>
      intro p hall
      simp only [List.foldl_cons]
      rw [scanStep_some_keep lat lon p court
        (fun h => hall court (List.mem_cons_self _ _) h.2)]
      exact ih p fun x hx => hall x (List.mem_cons_of_mem _ hx)

theorem scanCourts_const_distance (lat lon : ℝ) (c : Court) (rest : List Court)
    (d : ℝ) (hd : d < GEOFENCE_RADIUS)
    (hall : ∀ x ∈ c :: rest, courtDistance lat lon x = d) :
    scanCourts lat lon (c :: rest) = some (c, d) := by
  unfold scanCourts
  simp only [List.foldl_cons]
  have hc : courtDistance lat lon c = d := hall c (List.mem_cons_self _ _)
  have h1 : scanStep lat lon none c = some (c, d) := by
    rw [scanStep_none_within lat lon c (by rw [hc]; exact hd), hc]
  rw [h1]
  exact scanAux_keep lat lon rest (c, d) fun x hx => by
    rw [hall x (List.mem_cons_of_mem _ hx)]
    exact lt_irrefl d

/-! ### Evaluation-cycle branch lemmas -/

theorem process_throttled (ci co : String → Bool) (loc : Coords) (now : ℤ)
    (s : GeofenceState) (courts : List Court)
    (h : now - s.lastCheckTime < CHECK_INTERVAL) :
    processLocationUpdate ci co loc now s courts =
      { fetchedCatalog := false, calls := [], saves := [] } := by
  unfold processLocationUpdate
  rw [if_pos h]

theorem process_emptyCatalog (ci co : String → Bool) (loc : Coords) (now : ℤ)
    (s : GeofenceState) (h : ¬ now - s.lastCheckTime < CHECK_INTERVAL) :
    processLocationUpdate ci co loc now s [] =
      { fetchedCatalog := true, calls := [], saves := [] } := by
  unfold processLocationUpdate
  rw [if_neg h]
  simp

theorem process_enter (ci co : String → Bool) (loc : Coords) (now : ℤ)
    (s : GeofenceState) (courts : List Court) (c : Court) (dc : ℝ)
    (h1 : ¬ now - s.lastCheckTime < CHECK_INTERVAL) (h2 : courts ≠ [])
    (hscan : scanCourts loc.latitude loc.longitude courts = some (c, dc))
    (hne : s.currentCourtId ≠ some c.id) :
    processLocationUpdate ci co loc now s courts =
      { fetchedCatalog := true
        calls := (match s.currentCourtId with
          | some old => [GatewayCall.checkout old]
          | none => []) ++ [GatewayCall.checkin c.id]
        saves := (if ci c.id then
            [{ currentCourtId := some c.id, lastCheckTime := now }]
          else []) ++
          [{ currentCourtId := s.currentCourtId, lastCheckTime := now }] } := by
  unfold processLocationUpdate
  rw [if_neg h1, if_neg (fun hl => h2 (List.length_eq_zero.mp hl)), hscan]
  simp [hne]

theorem process_noop (ci co : String → Bool) (loc : Coords) (now : ℤ)
    (s : GeofenceState) (courts : List Court) (c : Court) (dc : ℝ)
    (h1 : ¬ now - s.lastCheckTime < CHECK_INTERVAL) (h2 : courts ≠ [])
    (hscan : scanCourts loc.latitude loc.longitude courts = some (c, dc))
    (heq : s.currentCourtId = some c.id) :
    processLocationUpdate ci co loc now s courts =
      { fetchedCatalog := true
        calls := []
        saves := [{ currentCourtId := s.currentCourtId, lastCheckTime := now }] } := by
  unfold processLocationUpdate
  rw [if_neg h1, if_neg (fun hl => h2 (List.length_eq_zero.mp hl)), hscan]
  simp [heq]

theorem process_exit (ci co : String → Bool) (loc : Coords) (now : ℤ)
    (s : GeofenceState) (courts : List Court) (old : String)
    (h1 : ¬ now - s.lastCheckTime < CHECK_INTERVAL) (h2 : courts ≠ [])
    (hscan : scanCourts loc.latitude loc.longitude courts = none)
    (hcur : s.currentCourtId = some old) :
    processLocationUpdate ci co loc now s courts =
      { fetchedCatalog := true
        calls := [GatewayCall.checkout old]
        saves := [{ currentCourtId := none, lastCheckTime := now },
          { currentCourtId := some old, lastCheckTime := now }] } := by
  unfold processLocationUpdate
  rw [if_neg h1, if_neg (fun hl => h2 (List.length_eq_zero.mp hl)), hscan, hcur]

theorem process_outside (ci co : String → Bool) (loc : Coords) (now : ℤ)
    (s : GeofenceState) (courts : List Court)
    (h1 : ¬ now - s.lastCheckTime < CHECK_INTERVAL) (h2 : courts ≠ [])
    (hscan : scanCourts loc.latitude loc.longitude courts = none)
    (hcur : s.currentCourtId = none) :
    processLocationUpdate ci co loc now s courts =
      { fetchedCatalog := true
        calls := []
        saves := [{ currentCourtId := none, lastCheckTime := now }] } := by
  unfold processLocationUpdate
  rw [if_neg h1, if_neg (fun hl => h2 (List.length_eq_zero.mp hl)), hscan, hcur]

/-- The gateway calls decided by a completing cycle, as a function of the
nearest-court scan result and the loaded `currentCourtId` alone. -/
def transitionCalls (scan : Option (Court × ℝ)) (cur : Option String) :
    List GatewayCall :=
  match scan, cur with
  | some (c, _), cur =>
      if cur ≠ some c.id then
        (match cur with
          | some old => [GatewayCall.checkout old]
          | none => []) ++ [GatewayCall.checkin c.id]
      else []
  | none, some old => [GatewayCall.checkout old]
  | none, none => []

theorem process_saves_getLast (ci co : String → Bool) (loc : Coords) (now : ℤ)
    (s : GeofenceState) (courts : List Court)
    (h1 : ¬ now - s.lastCheckTime < CHECK_INTERVAL) (h2 : courts ≠ []) :
    (processLocationUpdate ci co loc now s courts).saves.getLast? =
      some { currentCourtId := s.currentCourtId, lastCheckTime := now } := by
  cases hscan : scanCourts loc.latitude loc.longitude courts with
  | some p =>
      obtain ⟨c, dc⟩ := p
      by_cases hne : s.currentCourtId = some c.id
      · rw [process_noop ci co loc now s courts c dc h1 h2 hscan hne]
        simp
      · rw [process_enter ci co loc now s courts c dc h1 h2 hscan hne]
        by_cases hci : ci c.id
        · simp [hci]
        · simp [hci]
  | none =>
      cases hcur : s.currentCourtId with
      | some old =>
          rw [process_exit ci co loc now s courts old h1 h2 hscan hcur]
          simp
      | none =>
          rw [process_outside ci co loc now s courts h1 h2 hscan hcur]
          simp

theorem process_finalState (ci co : String → Bool) (loc : Coords) (now : ℤ)
    (s : GeofenceState) (courts : List Court)
    (h1 : ¬ now - s.lastCheckTime < CHECK_INTERVAL) (h2 : courts ≠ []) :
    finalState s (processLocationUpdate ci co loc now s courts) =
      { currentCourtId := s.currentCourtId, lastCheckTime := now } := by
  unfold finalState
  rw [process_saves_getLast ci co loc now s courts h1 h2]
  rfl

theorem process_calls_eq (ci co : String → Bool) (loc : Coords) (now : ℤ)
    (s : GeofenceState) (courts : List Court)
    (h1 : ¬ now - s.lastCheckTime < CHECK_INTERVAL) (h2 : courts ≠ []) :
    (processLocationUpdate ci co loc now s courts).calls =
      transitionCalls (scanCourts loc.latitude loc.longitude courts)
        s.currentCourtId := by
  cases hscan : scanCourts loc.latitude loc.longitude courts with
  | some p =>
      obtain ⟨c, dc⟩ := p
      by_cases hne : s.currentCourtId = some c.id
      · rw [process_noop ci co loc now s courts c dc h1 h2 hscan hne]
        simp [transitionCalls, hne]
      · rw [process_enter ci co loc now s courts c dc h1 h2 hscan hne]
        simp [transitionCalls, hne]
  | none =>
      cases hcur : s.currentCourtId with
      | some old =>
          rw [process_exit ci co loc now s courts old h1 h2 hscan hcur]
          simp [transitionCalls]
      | none =>
          rw [process_outside ci co loc now s courts h1 h2 hscan hcur]
          simp [transitionCalls]

/-! ### Concrete fixtures for counterexamples and witnesses -/

/-- Gateway oracle: every check-in / check-out call succeeds. -/
def allOk : String → Bool := fun _ => true

/-- Gateway oracle: every check-in / check-out call fails. -/
def allFail : String → Bool := fun _ => false

/-- A sample at the origin. -/
def originLoc : Coords := { latitude := 0, longitude := 0 }

/-- A court at the origin with id `court1`. -/
def testCourt : Court :=
  { id := "court1", name := "Test Court", latitude := 0, longitude := 0 }

/-- A court at the origin with id `A`. -/
def courtA : Court := { id := "A", name := "Court A", latitude := 0, longitude := 0 }

/-- A court at the origin with id `B`. -/
def courtB : Court := { id := "B", name := "Court B", latitude := 0, longitude := 0 }

theorem courtDistance_origin_zero (c : Court) (h1 : c.latitude = 0)
    (h2 : c.longitude = 0) : courtDistance 0 0 c = 0 := by
  unfold courtDistance
  rw [h1, h2]
  exact calculateDistance_self 0 0

theorem scan_origin_single (c : Court) (h1 : c.latitude = 0)
    (h2 : c.longitude = 0) : scanCourts 0 0 [c] = some (c, 0) := by
  refine scanCourts_const_distance 0 0 c [] 0 (by norm_num [GEOFENCE_RADIUS]) ?_
  intro x hx
  simp only [List.mem_singleton] at hx
  rw [hx]
  exact courtDistance_origin_zero c h1 h2

theorem scan_origin_pair (c1 c2 : Court) (h1 : c1.latitude = 0)
    (h2 : c1.longitude = 0) (h3 : c2.latitude = 0) (h4 : c2.longitude = 0) :
    scanCourts 0 0 [c1, c2] = some (c1, 0) := by
  refine scanCourts_const_distance 0 0 c1 [c2] 0 (by norm_num [GEOFENCE_RADIUS]) ?_
  intro x hx
  rcases List.mem_cons.mp hx with hx1 | hx2
  · rw [hx1]
    exact courtDistance_origin_zero c1 h1 h2
  · simp only [List.mem_singleton] at hx2
    rw [hx2]
    exact courtDistance_origin_zero c2 h3 h4

/-! ### Claims -/

/-- Claim C1 (the code FAILS this claim): two consecutive evaluation cycles at
a stable position with an unchanged singleton catalog, gateway always
succeeding.  The first cycle performs ENTER and its branch persists
`{currentCourtId: "court1"}`, but the unconditional trailing save overwrites
it with the loaded `currentCourtId = null`, so the state visible to the second
cycle is `{null, 30000}`; the second cycle therefore decides ENTER again and
issues a second check-in call, not NONE — two check-in network calls across
the two cycles instead of the claimed one. -/
theorem C1_idempotence_failure :
    (processLocationUpdate allOk allOk originLoc 30000
        { currentCourtId := none, lastCheckTime := 0 } [testCourt]).calls =
      [GatewayCall.checkin "court1"] ∧
    finalState { currentCourtId := none, lastCheckTime := 0 }
        (processLocationUpdate allOk allOk originLoc 30000
          { currentCourtId := none, lastCheckTime := 0 } [testCourt]) =
      { currentCourtId := none, lastCheckTime := 30000 } ∧
    (processLocationUpdate allOk allOk originLoc 60000
        { currentCourtId := none, lastCheckTime := 30000 } [testCourt]).calls =
      [GatewayCall.checkin "court1"] := by
  have h1 : ¬ ((30000 : ℤ) -
      (({ currentCourtId := none, lastCheckTime := 0 } : GeofenceState)).lastCheckTime <
      CHECK_INTERVAL) := by
    norm_num [CHECK_INTERVAL]
  have h1b : ¬ ((60000 : ℤ) -
      (({ currentCourtId := none, lastCheckTime := 30000 } : GeofenceState)).lastCheckTime <
      CHECK_INTERVAL) := by
    norm_num [CHECK_INTERVAL]
  have hscan : scanCourts originLoc.latitude originLoc.longitude [testCourt] =
      some (testCourt, 0) := scan_origin_single testCourt rfl rfl
  refine ⟨?_, ?_, ?_⟩
  · rw [process_enter allOk allOk originLoc 30000 _ [testCourt] testCourt 0 h1
      (by simp) hscan (by simp [testCourt])]
    simp [testCourt]
  · rw [process_finalState allOk allOk originLoc 30000 _ [testCourt] h1 (by simp)]
  · rw [process_enter allOk allOk originLoc 60000 _ [testCourt] testCourt 0 h1b
      (by simp) hscan (by simp [testCourt])]
    simp [testCourt]

/-- Claim C2 counterexample: in a SWITCH from court `A` to court `B` where the
checkout of `A` fails (`allFail`), the code still issues the check-in call for
`B` — the claim's "if the checkout call fails, no checkin call is made for B"
is false (the source ignores the result of `checkOutOfCourt`). -/
theorem C2_checkout_failure_counterexample :
    allFail "A" = false ∧
    (processLocationUpdate allOk allFail originLoc 30000
        { currentCourtId := some "A", lastCheckTime := 0 } [courtB]).calls =
      [GatewayCall.checkout "A", GatewayCall.checkin "B"] := by
  refine ⟨rfl, ?_⟩
  have h1 : ¬ ((30000 : ℤ) -
      (({ currentCourtId := some "A", lastCheckTime := 0 } : GeofenceState)).lastCheckTime <
      CHECK_INTERVAL) := by
    norm_num [CHECK_INTERVAL]
  have hscan : scanCourts originLoc.latitude originLoc.longitude [courtB] =
      some (courtB, 0) := scan_origin_single courtB rfl rfl
  rw [process_enter allOk allFail originLoc 30000 _ [courtB] courtB 0 h1
    (by simp) hscan (by simp [courtB])]
  simp [courtB]

/-- Claim C2 as amended: for every SWITCH transition (prior court `A`, nearest
in-radius court `c` with a different id), the cycle issues `checkout A` first
and `checkin c.id` second — unconditionally, the checkout result being
ignored — and the state persisted by the cycle still carries
`currentCourtId = A` (the trailing unconditional save restores the loaded
value regardless of the call outcomes). -/
theorem C2_switch_order_and_state (ci co : String → Bool) (loc : Coords)
    (now : ℤ) (s : GeofenceState) (courts : List Court) (c : Court) (dc : ℝ)
    (A : String) (h1 : ¬ now - s.lastCheckTime < CHECK_INTERVAL)
    (h2 : courts ≠ [])
    (hscan : scanCourts loc.latitude loc.longitude courts = some (c, dc))
    (hcur : s.currentCourtId = some A) (hne : A ≠ c.id) :
    (processLocationUpdate ci co loc now s courts).calls =
      [GatewayCall.checkout A, GatewayCall.checkin c.id] ∧
    (finalState s (processLocationUpdate ci co loc now s courts)).currentCourtId =
      some A := by
  have hne2 : s.currentCourtId ≠ some c.id := by
    rw [hcur]
    simp [hne]
  constructor
  · rw [process_enter ci co loc now s courts c dc h1 h2 hscan hne2]
    simp [hcur]
  · rw [process_finalState ci co loc now s courts h1 h2]
    exact hcur

/-- Claim C3 counterexample: a cycle whose only gateway call (the check-in)
fails nevertheless persists a state different from the prior one — the
trailing unconditional save advances `lastCheckTime` to the cycle time, so
the `GeofenceState` visible to the next cycle does NOT equal its value before
the cycle. -/
theorem C3_gateway_failure_counterexample :
    callFails allFail allOk (GatewayCall.checkin "court1") = true ∧
    (processLocationUpdate allFail allOk originLoc 30000
        { currentCourtId := none, lastCheckTime := 0 } [testCourt]).calls =
      [GatewayCall.checkin "court1"] ∧
    finalState { currentCourtId := none, lastCheckTime := 0 }
        (processLocationUpdate allFail allOk originLoc 30000
          { currentCourtId := none, lastCheckTime := 0 } [testCourt]) ≠
      { currentCourtId := none, lastCheckTime := 0 } := by
  have h1 : ¬ ((30000 : ℤ) -
      (({ currentCourtId := none, lastCheckTime := 0 } : GeofenceState)).lastCheckTime <
      CHECK_INTERVAL) := by
    norm_num [CHECK_INTERVAL]
  have hscan : scanCourts originLoc.latitude originLoc.longitude [testCourt] =
      some (testCourt, 0) := scan_origin_single testCourt rfl rfl
  refine ⟨rfl, ?_, ?_⟩
  · rw [process_enter allFail allOk originLoc 30000 _ [testCourt] testCourt 0 h1
      (by simp) hscan (by simp [testCourt])]
    simp [testCourt]
  · rw [process_finalState allFail allOk originLoc 30000 _ [testCourt] h1 (by simp)]
    simp

/-- Claim C3 as amended: in every completing cycle in which some gateway call
fails, the `currentCourtId` component of the decided transition is not
persisted — the state visible to the next cycle carries the prior
`currentCourtId` — while `lastCheckTime` is advanced to the cycle time by the
unconditional trailing save; consequently any later cycle past the throttle,
at the same position and catalog, recomputes exactly the same gateway calls. -/
theorem C3_failure_keeps_court_retries (ci co : String → Bool) (loc : Coords)
    (now : ℤ) (s : GeofenceState) (courts : List Court)
    (h1 : ¬ now - s.lastCheckTime < CHECK_INTERVAL) (h2 : courts ≠ [])
    (hfail : ∃ call ∈ (processLocationUpdate ci co loc now s courts).calls,
      callFails ci co call = true) :
    (finalState s (processLocationUpdate ci co loc now s courts)).currentCourtId =
      s.currentCourtId ∧
    (finalState s (processLocationUpdate ci co loc now s courts)).lastCheckTime =
      now ∧
    ∀ later : ℤ, ¬ later - now < CHECK_INTERVAL →
      (processLocationUpdate ci co loc later
          (finalState s (processLocationUpdate ci co loc now s courts))
          courts).calls =
        (processLocationUpdate ci co loc now s courts).calls := by
  rw [process_finalState ci co loc now s courts h1 h2]
  refine ⟨rfl, rfl, ?_⟩
  intro later hlater
  rw [process_calls_eq ci co loc later _ courts hlater h2,
    process_calls_eq ci co loc now s courts h1 h2]

/-- Claim C4: the four-case transition table with the strict 75 m radius, for
every completing cycle.  When the scan selects a court it is a member of the
catalog, strictly within 75 m, and no catalog court is strictly nearer; a
differing id yields checkout-of-old (when non-null) followed by check-in, an
equal id yields no gateway call.  When no court is strictly within 75 m the
scan selects nothing, and the cycle issues exactly a checkout of the prior
court when one exists and no call otherwise. -/
theorem C4_transition_table (ci co : String → Bool) (loc : Coords) (now : ℤ)
    (s : GeofenceState) (courts : List Court)
    (h1 : ¬ now - s.lastCheckTime < CHECK_INTERVAL) (h2 : courts ≠ []) :
    (∀ (c : Court) (dc : ℝ),
      scanCourts loc.latitude loc.longitude courts = some (c, dc) →
      c ∈ courts ∧ dc = courtDistance loc.latitude loc.longitude c ∧
      dc < GEOFENCE_RADIUS ∧
      (∀ x ∈ courts, ¬ (courtDistance loc.latitude loc.longitude x < dc)) ∧
      (s.currentCourtId ≠ some c.id →
        (processLocationUpdate ci co loc now s courts).calls =
          (match s.currentCourtId with
            | some old => [GatewayCall.checkout old]
            | none => []) ++ [GatewayCall.checkin c.id]) ∧
      (s.currentCourtId = some c.id →
        (processLocationUpdate ci co loc now s courts).calls = [])) ∧
    ((∀ x ∈ courts, ¬ (courtDistance loc.latitude loc.longitude x < GEOFENCE_RADIUS)) →
      scanCourts loc.latitude loc.longitude courts = none) ∧
    (scanCourts loc.latitude loc.longitude courts = none →
      (∀ old : String, s.currentCourtId = some old →
        (processLocationUpdate ci co loc now s courts).calls =
          [GatewayCall.checkout old]) ∧
      (s.currentCourtId = none →
        (processLocationUpdate ci co loc now s courts).calls = [])) := by
  refine ⟨?_, ?_, ?_⟩
  · intro c dc hscan
    obtain ⟨hmem, hdist, hrad, hmin⟩ :=
      scanCourts_some_spec loc.latitude loc.longitude courts c dc hscan
    refine ⟨hmem, hdist, hrad, hmin, ?_, ?_⟩
    · intro hne
      rw [process_enter ci co loc now s courts c dc h1 h2 hscan hne]
    · intro heq
      rw [process_noop ci co loc now s courts c dc h1 h2 hscan heq]
  · intro hfar
    exact (scanCourts_eq_none_iff loc.latitude loc.longitude courts).mpr hfar
  · intro hscan
    constructor
    · intro old hcur
      rw [process_exit ci co loc now s courts old h1 h2 hscan hcur]
    · intro hcur
      rw [process_outside ci co loc now s courts h1 h2 hscan hcur]

/-- Claim C5: a cycle whose catalog is empty — in particular when the catalog
fetch fails, which `fetchCourts` maps to the empty list — issues no gateway
call, performs no state write at all, and leaves the persisted state exactly
as it was, for every prior state (a non-null `currentCourtId` is NOT treated
as an exit). -/
theorem C5_empty_catalog_noop (ci co : String → Bool) (loc : Coords) (now : ℤ)
    (s : GeofenceState) :
    fetchCourts none = [] ∧
    (processLocationUpdate ci co loc now s (fetchCourts none)).calls = [] ∧
    (processLocationUpdate ci co loc now s (fetchCourts none)).saves = [] ∧
    finalState s (processLocationUpdate ci co loc now s (fetchCourts none)) = s := by
  refine ⟨rfl, ?_⟩
  by_cases h : now - s.lastCheckTime < CHECK_INTERVAL
  · rw [show fetchCourts none = [] from rfl,
      process_throttled ci co loc now s [] h]
    exact ⟨rfl, rfl, rfl⟩
  · rw [show fetchCourts none = [] from rfl,
      process_emptyCatalog ci co loc now s h]
    exact ⟨rfl, rfl, rfl⟩

/-- Claim C6: the 30-second throttle.  Any sample arriving less than
`CHECK_INTERVAL` after the persisted `lastCheckTime` is dropped without
evaluation — no catalog fetch, no gateway call, no state write; and after a
completing cycle at time `now` (which persists `lastCheckTime = now`), a
second sample fewer than 30 seconds later is dropped the same way, so at most
one full evaluation cycle executes per 30-second window. -/
theorem C6_throttle_drops_early_sample (ci co : String → Bool)
    (loc loc2 : Coords) (now now2 : ℤ) (s : GeofenceState)
    (courts : List Court) (h1 : ¬ now - s.lastCheckTime < CHECK_INTERVAL)
    (h2 : courts ≠ []) (h3 : now2 - now < CHECK_INTERVAL) :
    (∀ (loc3 : Coords) (t : ℤ), t - s.lastCheckTime < CHECK_INTERVAL →
      processLocationUpdate ci co loc3 t s courts =
        { fetchedCatalog := false, calls := [], saves := [] }) ∧
    processLocationUpdate ci co loc2 now2
        (finalState s (processLocationUpdate ci co loc now s courts)) courts =
      { fetchedCatalog := false, calls := [], saves := [] } := by
  constructor
  · intro loc3 t ht
    exact process_throttled ci co loc3 t s courts ht
  · rw [process_finalState ci co loc now s courts h1 h2]
    exact process_throttled ci co loc2 now2 _ courts h3

/-- Claim C7 counterexample: two courts both at the sample position (hence
exactly equidistant, distance 0, within the 75 m radius) listed as
`[courtB, courtA]` make the scan select id `"B"`, not the lowest id `"A"`;
reversing the catalog order selects `"A"` — the selection is NOT by lowest
court id and NOT independent of catalog order. -/
theorem C7_tiebreak_counterexample :
    scanCourts 0 0 [courtB, courtA] = some (courtB, 0) ∧
    scanCourts 0 0 [courtA, courtB] = some (courtA, 0) ∧
    courtB.id = "B" ∧ courtA.id = "A" := by
  exact ⟨scan_origin_pair courtB courtA rfl rfl rfl rfl,
    scan_origin_pair courtA courtB rfl rfl rfl rfl, rfl, rfl⟩

/-- Claim C7 as amended: in ANY catalog, the scan selects the FIRST court in
catalog order among those tied at the minimal distance — if court `c` is
strictly within the radius, every court listed before it is strictly
farther, and no court listed after it is strictly nearer (later ties
allowed), then `c` is selected, whatever other distances occur in the
catalog.  A later court replaces the accumulator only when strictly nearer,
so the selection depends on catalog order, not on court ids. -/
theorem C7_tiebreak_first_in_catalog (lat lon : ℝ) (pre post : List Court)
    (c : Court) (hc : courtDistance lat lon c < GEOFENCE_RADIUS)
    (hpre : ∀ x ∈ pre, courtDistance lat lon c < courtDistance lat lon x)
    (hpost : ∀ x ∈ post, ¬ (courtDistance lat lon x < courtDistance lat lon c)) :
    scanCourts lat lon (pre ++ c :: post) =
      some (c, courtDistance lat lon c) := by
  unfold scanCourts
  rw [List.foldl_append]
  cases hacc : pre.foldl (scanStep lat lon) none with
  | none =>
      rw [List.foldl_cons, scanStep_none_within lat lon c hc]
      exact scanAux_keep lat lon post (c, courtDistance lat lon c) hpost
  | some p =>
      obtain ⟨x, dx⟩ := p
      rcases scanAux_mem lat lon pre none x dx hacc with h1 | h2
      · cases h1
      · have hdx : courtDistance lat lon c < dx := by
          rw [h2.2.1]
          exact hpre x h2.1
        rw [List.foldl_cons, scanStep_some_improve lat lon (x, dx) c ⟨hc, hdx⟩]
        exact scanAux_keep lat lon post (c, courtDistance lat lon c) hpost

/-- Claim C8 counterexample: `calculateDistance` is zero at two coordinates
that are not equal — a longitude difference of a full 360 degrees yields
distance 0 — so the "zero iff the two coordinates are equal" direction of
the claim is false on the Haversine formula as implemented. -/
theorem C8_zero_at_unequal_coords :
    calculateDistance 0 0 0 360 = 0 ∧
    ((0 : ℝ), (360 : ℝ)) ≠ ((0 : ℝ), (0 : ℝ)) := by
  refine ⟨calculateDistance_lon_wraparound, ?_⟩
  intro h
  have h2 : (360 : ℝ) = 0 := congrArg Prod.snd h
  norm_num at h2

/-- Claim C8 as amended: for all coordinate pairs, `calculateDistance` is
non-negative, symmetric in its two coordinates, and zero on identical
coordinates (it is a pure function of its arguments); but distance zero
does not imply the coordinates are equal (longitudes a full turn apart
also give zero). -/
theorem C8_distance_properties (lat1 lon1 lat2 lon2 : ℝ) :
    0 ≤ calculateDistance lat1 lon1 lat2 lon2 ∧
    calculateDistance lat1 lon1 lat2 lon2 = calculateDistance lat2 lon2 lat1 lon1 ∧
    calculateDistance lat1 lon1 lat1 lon1 = 0 :=
  ⟨calculateDistance_nonneg lat1 lon1 lat2 lon2,
    calculateDistance_symm lat1 lon1 lat2 lon2,
    calculateDistance_self lat1 lon1⟩

/-- Claim C9 counterexample: a `startGeofencing()` run in which the
background task is already registered returns `true` immediately — it issues
NO permission requests at all, even though both permissions would be denied —
so "every run requests foreground first and background second, and returns
false on denial" is false as stated. -/
theorem C9_already_registered_counterexample :
    startGeofencing
        { isRegistered := true, foregroundStatus := "denied",
          backgroundStatus := "denied", startUpdatesOk := true } =
      { requests := [], subscribed := false, result := true } := rfl

/-- Claim C9 as amended: when the monitoring task is not already registered,
`startGeofencing()` requests the foreground permission first and the
background permission second, and if either status is not `"granted"` it
returns `false` without subscribing to location updates; when the task is
already registered it returns `true` immediately with no permission
requests. -/
theorem C9_permission_gate (env : StartEnv) (h : env.isRegistered = false) :
    (env.foregroundStatus ≠ "granted" →
      startGeofencing env =
        { requests := [PermissionRequest.foreground], subscribed := false,
          result := false }) ∧
    (env.foregroundStatus = "granted" → env.backgroundStatus ≠ "granted" →
      startGeofencing env =
        { requests := [PermissionRequest.foreground, PermissionRequest.background],
          subscribed := false, result := false }) ∧
    (env.foregroundStatus = "granted" → env.backgroundStatus = "granted" →
      (startGeofencing env).requests =
        [PermissionRequest.foreground, PermissionRequest.background] ∧
      (startGeofencing env).subscribed = true ∧
      (startGeofencing env).result = env.startUpdatesOk) := by
  unfold startGeofencing
  rw [if_neg (by simp [h])]
  refine ⟨?_, ?_, ?_⟩
  · intro hfg
    rw [if_pos hfg]
  · intro hfg hbg
    rw [if_neg (by simp [hfg]), if_pos hbg]
  · intro hfg hbg
    rw [if_neg (by simp [hfg]), if_neg (by simp [hbg])]
    exact ⟨rfl, rfl, rfl⟩

/-- Claim C10 (implicit, confirmed): in every invocation that passes the
throttle and has a non-empty catalog, the LAST `saveGeofenceState` write of
the invocation persists `currentCourtId` equal to the value loaded at the
start and `lastCheckTime` equal to the invocation time — the unconditional
trailing save overwrites any different `currentCourtId` written by the ENTER
or EXIT branch, so a cycle durably changes only `lastCheckTime`. -/
theorem C10_trailing_save_overwrites (ci co : String → Bool) (loc : Coords)
    (now : ℤ) (s : GeofenceState) (courts : List Court)
    (h1 : ¬ now - s.lastCheckTime < CHECK_INTERVAL) (h2 : courts ≠ []) :
    (processLocationUpdate ci co loc now s courts).saves.getLast? =
      some { currentCourtId := s.currentCourtId, lastCheckTime := now } ∧
    finalState s (processLocationUpdate ci co loc now s courts) =
      { currentCourtId := s.currentCourtId, lastCheckTime := now } :=
  ⟨process_saves_getLast ci co loc now s courts h1 h2,
    process_finalState ci co loc now s courts h1 h2⟩

/-! ### Witnesses: each hypothesis-bearing claim theorem applied at a
concrete input -/

/-- Witness for the amended C2 at a concrete SWITCH from `"A"` to `courtB`
with the checkout failing. -/
theorem C2_switch_order_and_state_witness :
    ¬ ((30000 : ℤ) -
      (({ currentCourtId := some "A", lastCheckTime := 0 } : GeofenceState)).lastCheckTime <
      CHECK_INTERVAL) ∧
    (processLocationUpdate allOk allFail originLoc 30000
        { currentCourtId := some "A", lastCheckTime := 0 } [courtB]).calls =
      [GatewayCall.checkout "A", GatewayCall.checkin "B"] ∧
    (finalState { currentCourtId := some "A", lastCheckTime := 0 }
        (processLocationUpdate allOk allFail originLoc 30000
          { currentCourtId := some "A", lastCheckTime := 0 } [courtB])).currentCourtId =
      some "A" := by
  have h1 : ¬ ((30000 : ℤ) -
      (({ currentCourtId := some "A", lastCheckTime := 0 } : GeofenceState)).lastCheckTime <
      CHECK_INTERVAL) := by
    norm_num [CHECK_INTERVAL]
  have hmain := C2_switch_order_and_state allOk allFail originLoc 30000
    { currentCourtId := some "A", lastCheckTime := 0 } [courtB] courtB 0 "A" h1
    (by simp) (scan_origin_single courtB rfl rfl) rfl (by decide)
  exact ⟨h1, hmain.1, hmain.2⟩

/-- Witness for the amended C3 at a concrete ENTER whose check-in fails. -/
theorem C3_failure_keeps_court_retries_witness :
    callFails allFail allOk (GatewayCall.checkin "court1") = true ∧
    (finalState { currentCourtId := none, lastCheckTime := 0 }
        (processLocationUpdate allFail allOk originLoc 30000
          { currentCourtId := none, lastCheckTime := 0 } [testCourt])).currentCourtId =
      none ∧
    (finalState { currentCourtId := none, lastCheckTime := 0 }
        (processLocationUpdate allFail allOk originLoc 30000
          { currentCourtId := none, lastCheckTime := 0 } [testCourt])).lastCheckTime =
      30000 := by
  have h1 : ¬ ((30000 : ℤ) -
      (({ currentCourtId := none, lastCheckTime := 0 } : GeofenceState)).lastCheckTime <
      CHECK_INTERVAL) := by
    norm_num [CHECK_INTERVAL]
  have hfail : ∃ call ∈ (processLocationUpdate allFail allOk originLoc 30000
      { currentCourtId := none, lastCheckTime := 0 } [testCourt]).calls,
      callFails allFail allOk call = true := by
    refine ⟨GatewayCall.checkin "court1", ?_, rfl⟩
    rw [process_enter allFail allOk originLoc 30000 _ [testCourt] testCourt 0 h1
      (by simp) (scan_origin_single testCourt rfl rfl) (by simp [testCourt])]
    simp [testCourt]
  have hmain := C3_failure_keeps_court_retries allFail allOk originLoc 30000
    { currentCourtId := none, lastCheckTime := 0 } [testCourt] h1 (by simp) hfail
  exact ⟨rfl, hmain.1, hmain.2.1⟩

/-- Witness for C4 at a concrete NONE row: prior court `"B"`, nearest court
`courtB` — no gateway call. -/
theorem C4_transition_table_witness :
    ¬ ((30000 : ℤ) -
      (({ currentCourtId := some "B", lastCheckTime := 0 } : GeofenceState)).lastCheckTime <
      CHECK_INTERVAL) ∧
    (processLocationUpdate allOk allOk originLoc 30000
        { currentCourtId := some "B", lastCheckTime := 0 } [courtB]).calls = [] := by
  have h1 : ¬ ((30000 : ℤ) -
      (({ currentCourtId := some "B", lastCheckTime := 0 } : GeofenceState)).lastCheckTime <
      CHECK_INTERVAL) := by
    norm_num [CHECK_INTERVAL]
  have hmain := C4_transition_table allOk allOk originLoc 30000
    { currentCourtId := some "B", lastCheckTime := 0 } [courtB] h1 (by simp)
  exact ⟨h1, (hmain.1 courtB 0 (scan_origin_single courtB rfl rfl)).2.2.2.2.2 rfl⟩

/-- Witness for C6: a completed cycle at `t = 30000` followed by a sample at
`t = 35000` (5 seconds later) which is dropped whole. -/
theorem C6_throttle_witness :
    ((35000 : ℤ) - 30000 < CHECK_INTERVAL) ∧
    processLocationUpdate allOk allOk originLoc 35000
        (finalState { currentCourtId := none, lastCheckTime := 0 }
          (processLocationUpdate allOk allOk originLoc 30000
            { currentCourtId := none, lastCheckTime := 0 } [testCourt])) [testCourt] =
      { fetchedCatalog := false, calls := [], saves := [] } := by
  have h1 : ¬ ((30000 : ℤ) -
      (({ currentCourtId := none, lastCheckTime := 0 } : GeofenceState)).lastCheckTime <
      CHECK_INTERVAL) := by
    norm_num [CHECK_INTERVAL]
  have h3 : (35000 : ℤ) - 30000 < CHECK_INTERVAL := by norm_num [CHECK_INTERVAL]
  exact ⟨h3, (C6_throttle_drops_early_sample allOk allOk originLoc originLoc
    30000 35000 { currentCourtId := none, lastCheckTime := 0 } [testCourt]
    h1 (by simp) h3).2⟩

/-- A court far outside the radius (on the opposite side of the sphere). -/
def farCourt : Court :=
  { id := "far", name := "Far Court", latitude := 180, longitude := 0 }

/-- Witness for the amended C7 on a mixed-distance catalog:
`[farCourt, testCourt, courtA]` with `farCourt` out of radius and
`testCourt`, `courtA` tied at the sample position — the first tied entry,
`testCourt`, wins. -/
theorem C7_tiebreak_first_in_catalog_witness :
    courtDistance 0 0 testCourt < GEOFENCE_RADIUS ∧
    scanCourts 0 0 [farCourt, testCourt, courtA] = some (testCourt, 0) := by
  have hc0 : courtDistance 0 0 testCourt = 0 :=
    courtDistance_origin_zero testCourt rfl rfl
  have hA0 : courtDistance 0 0 courtA = 0 :=
    courtDistance_origin_zero courtA rfl rfl
  have hfar : courtDistance 0 0 farCourt = 6371000 * Real.pi :=
    calculateDistance_antipolar
  have hc : courtDistance 0 0 testCourt < GEOFENCE_RADIUS := by
    rw [hc0]
    norm_num [GEOFENCE_RADIUS]
  have hmain := C7_tiebreak_first_in_catalog 0 0 [farCourt] [courtA] testCourt hc
    (by
      intro x hx
      simp only [List.mem_singleton] at hx
      rw [hx, hc0, hfar]
      positivity)
    (by
      intro x hx
      simp only [List.mem_singleton] at hx
      rw [hx, hc0, hA0]
      exact lt_irrefl 0)
  rw [hc0] at hmain
  exact ⟨hc, hmain⟩

/-- Witness for the amended C9: task not registered, foreground permission
denied — exactly one permission request, result `false`, no subscription. -/
theorem C9_permission_gate_witness :
    (({ isRegistered := false, foregroundStatus := "denied",
        backgroundStatus := "denied", startUpdatesOk := true } : StartEnv)).isRegistered =
      false ∧
    startGeofencing
        { isRegistered := false, foregroundStatus := "denied",
          backgroundStatus := "denied", startUpdatesOk := true } =
      { requests := [PermissionRequest.foreground], subscribed := false,
        result := false } := by
  exact ⟨rfl, (C9_permission_gate
    { isRegistered := false, foregroundStatus := "denied",
      backgroundStatus := "denied", startUpdatesOk := true } rfl).1 (by decide)⟩

/-- Witness for C10 at a concrete ENTER-success cycle: despite the ENTER
branch saving `currentCourtId = "A"`, the last write of the cycle restores
`currentCourtId = null` with the new timestamp. -/
theorem C10_trailing_save_overwrites_witness :
    ¬ ((30000 : ℤ) -
      (({ currentCourtId := none, lastCheckTime := 0 } : GeofenceState)).lastCheckTime <
      CHECK_INTERVAL) ∧
    (processLocationUpdate allOk allOk originLoc 30000
        { currentCourtId := none, lastCheckTime := 0 } [courtA]).saves.getLast? =
      some { currentCourtId := none, lastCheckTime := 30000 } := by
  have h1 : ¬ ((30000 : ℤ) -
      (({ currentCourtId := none, lastCheckTime := 0 } : GeofenceState)).lastCheckTime <
      CHECK_INTERVAL) := by
    norm_num [CHECK_INTERVAL]
  exact ⟨h1, (C10_trailing_save_overwrites allOk allOk originLoc 30000
    { currentCourtId := none, lastCheckTime := 0 } [courtA] h1 (by simp)).1⟩

end BallHouse
